import Mathlib

set_option maxRecDepth 65536

/-!
Shallow embedding of the code-reviewer backend's webhook ingestion,
queue configuration, job status / report download routes, ESLint
service and realtime fanout helpers, together with theorems checking
the natural-language specification against this embedding.

External collaborators (the Node `crypto` HMAC, the Bull queue store,
the ESLint engine, the socket.io server) are modelled explicitly:
HMAC-SHA256 is a function parameter, the filesystem is an association
list, the lint engine is a pure function of the file content.
-/

/-! ## JSON values, `JSON.stringify` and the express `json()` body parser -/

/-- JSON values as delivered by the express `json()` body parser
(numbers restricted to integers, which covers every payload
appearing in the routes). -/
inductive Json where
  | null
  | bool (b : Bool)
  | num (n : Int)
  | str (s : String)
  | arr (elems : List Json)
  | obj (fields : List (String × Json))

def escapeJsonChar (c : Char) : String :=
  if c = '"' then "\\\"" else if c = '\\' then "\\\\" else String.singleton c

def escapeJsonString (s : String) : String :=
  s.data.foldl (fun acc c => acc ++ escapeJsonChar c) ""

mutual

/-- `JSON.stringify` on the embedded JSON values: compact output,
no whitespace between tokens (exactly what Node's `JSON.stringify`
produces for these values). -/
def Json.stringify : Json → String
  | .null => "null"
  | .bool true => "true"
  | .bool false => "false"
  | .num n => toString n
  | .str s => "\"" ++ escapeJsonString s ++ "\""
  | .arr es => "[" ++ stringifyElems es ++ "]"
  | .obj fs => "\x7b" ++ stringifyFields fs ++ "\x7d"

def stringifyElems : List Json → String
  | [] => ""
  | [e] => Json.stringify e
  | e :: rest => Json.stringify e ++ "," ++ stringifyElems rest

def stringifyFields : List (String × Json) → String
  | [] => ""
  | [(k, v)] => "\"" ++ escapeJsonString k ++ "\":" ++ Json.stringify v
  | (k, v) :: rest =>
      "\"" ++ escapeJsonString k ++ "\":" ++ Json.stringify v ++ "," ++ stringifyFields rest

end

def isJsonWs (c : Char) : Bool :=
  c = ' ' || c = '\t' || c = '\n' || c = '\r'

def skipWs : List Char → List Char
  | [] => []
  | c :: cs => if isJsonWs c then skipWs cs else c :: cs

/-- Consume the body of a JSON string up to the closing quote
(escape sequences are rejected; none of the payloads used here
contains one). -/
def parseStringBody : List Char → Option (String × List Char)
  | [] => none
  | c :: cs =>
    if c = '"' then some ("", cs)
    else if c = '\\' then none
    else match parseStringBody cs with
      | some (s, rest) => some (String.singleton c ++ s, rest)
      | none => none

def takeDigits : List Char → (List Char × List Char)
  | [] => ([], [])
  | c :: cs =>
    if c.isDigit then
      let (ds, r) := takeDigits cs
      (c :: ds, r)
    else ([], c :: cs)

def digitsToNat (ds : List Char) : Nat :=
  ds.foldl (fun a c => a * 10 + (c.toNat - 48)) 0

mutual

/-- Fuel-indexed recursive-descent parser for the JSON subset,
mirroring `JSON.parse` as invoked by the express `json()` middleware. -/
def parseValue : Nat → List Char → Option (Json × List Char)
  | 0, _ => none
  | fuel + 1, cs =>
    match skipWs cs with
    | 'n' :: 'u' :: 'l' :: 'l' :: r => some (.null, r)
    | 't' :: 'r' :: 'u' :: 'e' :: r => some (.bool true, r)
    | 'f' :: 'a' :: 'l' :: 's' :: 'e' :: r => some (.bool false, r)
    | '"' :: r =>
      match parseStringBody r with
      | some (s, r') => some (.str s, r')
      | none => none
    | '[' :: r =>
      (match skipWs r with
       | ']' :: r2 => some (.arr [], r2)
       | r2 =>
         match parseElems fuel r2 with
         | some (es, r3) => some (.arr es, r3)
         | none => none)
    | '\x7b' :: r =>
      (match skipWs r with
       | '\x7d' :: r2 => some (.obj [], r2)
       | r2 =>
         match parseFields fuel r2 with
         | some (fs, r3) => some (.obj fs, r3)
         | none => none)
    | '-' :: r =>
      (match takeDigits r with
       | ([], _) => none
       | (ds, r2) => some (.num (-(digitsToNat ds : Int)), r2))
    | c :: r =>
      if c.isDigit then
        match takeDigits (c :: r) with
        | (ds, r2) => some (.num (digitsToNat ds), r2)
      else none
    | [] => none

def parseElems : Nat → List Char → Option (List Json × List Char)
  | 0, _ => none
  | fuel + 1, cs =>
    match parseValue fuel cs with
    | none => none
    | some (v, r) =>
      match skipWs r with
      | ',' :: r2 =>
        (match parseElems fuel r2 with
         | some (vs, r3) => some (v :: vs, r3)
         | none => none)
      | ']' :: r2 => some ([v], r2)
      | _ => none

def parseFields : Nat → List Char → Option (List (String × Json) × List Char)
  | 0, _ => none
  | fuel + 1, cs =>
    match skipWs cs with
    | '"' :: r =>
      (match parseStringBody r with
       | none => none
       | some (k, r2) =>
         match skipWs r2 with
         | ':' :: r3 =>
           (match parseValue fuel r3 with
            | none => none
            | some (v, r4) =>
              match skipWs r4 with
              | ',' :: r5 =>
                (match parseFields fuel r5 with
                 | some (fs, r6) => some ((k, v) :: fs, r6)
                 | none => none)
              | '\x7d' :: r5 => some ([(k, v)], r5)
              | _ => none)
         | _ => none)
    | _ => none

end

/-- `JSON.parse` of a whole request body, as run by the express
`json()` middleware before the route handler sees `req.body`. -/
def jsonParse (s : String) : Option Json :=
  match parseValue (2 * s.length + 2) s.data with
  | some (v, rest) => if skipWs rest = [] then some v else none
  | none => none

example : jsonParse "\x7b\"a\": 1\x7d" = some (.obj [("a", .num 1)]) := by rfl
example : Json.stringify (.obj [("a", .num 1)]) = "\x7b\"a\":1\x7d" := by rfl

/-! ## Node crypto model: `Buffer.from`, `timingSafeEqual`, HMAC digests

`crypto.createHmac('sha256', secret).update(m).digest('hex')` is an
external collaborator; it is modelled as an explicit function
parameter `hmacSha256Hex : String → String → String`
(secret → message → lowercase hex digest). -/

/-- Errors thrown by the Node runtime inside `verifyWebhookSignature`:
`Buffer.from(undefined)` throws a `TypeError`; `crypto.timingSafeEqual`
throws a `RangeError` when the two buffers have different byte lengths. -/
inductive NodeError where
  | typeError
  | rangeError
deriving DecidableEq, Repr

/-- `crypto.timingSafeEqual(Buffer.from(a), Buffer.from(b))`: throws
`RangeError` on different byte lengths, otherwise compares the bytes
(UTF-8 encodings are equal exactly when the strings are equal). -/
def timingSafeEqual (a b : String) : Except NodeError Bool :=
  if a.utf8ByteSize = b.utf8ByteSize then .ok (a = b) else .error .rangeError

/-- `GitHubService.verifyWebhookSignature` (githubService.ts): compares
the `x-hub-signature-256` header against
`'sha256=' + hmacSha256Hex(secret, payload)`.  A missing header reaches
`Buffer.from(undefined)` and throws. -/
def GitHubService.verifyWebhookSignature (hmacSha256Hex : String → String → String)
    (payload : String) (signature : Option String) (secret : String) :
    Except NodeError Bool :=
  let expectedSignature := "sha256=" ++ hmacSha256Hex secret payload
  match signature with
  | none => .error .typeError
  | some sig => timingSafeEqual sig expectedSignature

/-- `GitLabService.verifyWebhookSignature` (gitlabService.ts): same as
the GitHub variant but the expected digest carries no `sha256=` prefix. -/
def GitLabService.verifyWebhookSignature (hmacSha256Hex : String → String → String)
    (payload : String) (signature : Option String) (secret : String) :
    Except NodeError Bool :=
  let expectedSignature := hmacSha256Hex secret payload
  match signature with
  | none => .error .typeError
  | some sig => timingSafeEqual sig expectedSignature

/-! ## express-validator's `param(...).isUUID()` -/

def isUuidHexDigit (c : Char) : Bool :=
  c.isDigit || ('a' ≤ c && c ≤ 'f') || ('A' ≤ c && c ≤ 'F')

/-- `param('repositoryId').isUUID()`: 36 characters shaped
8-4-4-4-12, hyphens at positions 8, 13, 18 and 23, hex digits
elsewhere. -/
def isUUID (s : String) : Bool :=
  let cs := s.data
  cs.length == 36 &&
  (List.range 36).all (fun i =>
    let c := cs.getD i ' '
    if i == 8 || i == 13 || i == 18 || i == 23 then c == '-' else isUuidHexDigit c)

/-! ## Queue configuration (config/queues.ts) and backoff -/

inductive BackoffKind where
  | exponential
  | fixed
deriving DecidableEq, Repr

structure BackoffOptions where
  kind : BackoffKind
  delay : Nat
deriving DecidableEq, Repr

structure DefaultJobOptions where
  removeOnComplete : Nat
  removeOnFail : Nat
  attempts : Nat
  backoff : BackoffOptions
deriving DecidableEq, Repr

/-- `defaultJobOptions` of the `'code analysis'` queue in `setupQueues`. -/
def analysisQueueOptions : DefaultJobOptions :=
  { removeOnComplete := 100, removeOnFail := 50, attempts := 3,
    backoff := { kind := .exponential, delay := 2000 } }

/-- `defaultJobOptions` of the `'webhook processing'` queue in `setupQueues`. -/
def webhookQueueOptions : DefaultJobOptions :=
  { removeOnComplete := 200, removeOnFail := 100, attempts := 5,
    backoff := { kind := .exponential, delay := 1000 } }

/-- `defaultJobOptions` of the `'report generation'` queue in `setupQueues`. -/
def reportQueueOptions : DefaultJobOptions :=
  { removeOnComplete := 50, removeOnFail := 25, attempts := 2,
    backoff := { kind := .fixed, delay := 5000 } }

/-- Modelled from the spec: the retry delay the external Bull library
applies before attempt `attemptCount` is re-admitted — the delay
computation itself lives in Bull, not in this repository;
"`exponential` → delay = `baseDelay * 2^(attemptCount-1)`; `fixed` →
delay = `baseDelay` constant". -/
def backoffDelay (b : BackoffOptions) (attemptCount : Nat) : Nat :=
  match b.kind with
  | .exponential => b.delay * 2 ^ (attemptCount - 1)
  | .fixed => b.delay

/-! ## Webhook routes (routes/webhooks.ts) -/

/-- The job data object passed to `webhookQueue.add` by the webhook
routes: `{ repositoryId, event, payload, provider }`. -/
structure WebhookJobData where
  repositoryId : String
  event : Option String
  payload : Json
  provider : String

/-- One call to `queue.add(name, data, opts)` observed on the webhook
queue. -/
structure EnqueuedJob where
  queueName : String
  jobName : String
  data : WebhookJobData
  attempts : Nat
  backoff : BackoffOptions

/-- What a route handler can throw: a `CustomError` (message, HTTP
status), an error from the Node runtime, or the express `json()`
middleware rejecting an unparsable body before the handler runs. -/
inductive HandlerError where
  | customError (message : String) (statusCode : Nat)
  | nodeError (e : NodeError)
  | bodyParseFailed
deriving DecidableEq, Repr

/-- A successful route response: HTTP status plus the `message` field
of the JSON body. -/
structure ApiResponse where
  status : Nat
  message : String
deriving DecidableEq, Repr

/-- JavaScript truthiness of `process.env.X_WEBHOOK_SECRET`:
`undefined` and the empty string are falsy. -/
def secretConfigured : Option String → Bool
  | none => false
  | some s => s != ""

/-- `router.post('/github/:repositoryId')` from routes/webhooks.ts,
composed with the express `json()` body parser: validates the UUID,
verifies the signature over `JSON.stringify(req.body)` when a secret
is configured, then enqueues one `process-github-webhook` job.
Returns the handler outcome together with the list of jobs added to
the webhook queue during the call. -/
def githubWebhookRoute (hmacSha256Hex : String → String → String)
    (githubWebhookSecret : Option String) (repositoryId : String)
    (signature event : Option String) (rawBody : String) :
    Except HandlerError ApiResponse × List EnqueuedJob :=
  if !(isUUID repositoryId) then
    (.error (.customError "Invalid repository ID" 400), [])
  else
    match jsonParse rawBody with
    | none => (.error .bodyParseFailed, [])
    | some payload =>
      let enqueue : Except HandlerError ApiResponse × List EnqueuedJob :=
        (.ok { status := 200, message := "Webhook received and queued for processing" },
         [{ queueName := "webhook processing", jobName := "process-github-webhook",
            data := { repositoryId := repositoryId, event := event,
                      payload := payload, provider := "github" },
            attempts := 3, backoff := { kind := .exponential, delay := 2000 } }])
      if secretConfigured githubWebhookSecret then
        match GitHubService.verifyWebhookSignature hmacSha256Hex
            (Json.stringify payload) signature (githubWebhookSecret.getD "") with
        | .error e => (.error (.nodeError e), [])
        | .ok false => (.error (.customError "Invalid webhook signature" 401), [])
        | .ok true => enqueue
      else enqueue

/-- `router.post('/gitlab/:repositoryId')` from routes/webhooks.ts,
same shape as the GitHub route but using the GitLab service and the
`x-gitlab-token` header. -/
def gitlabWebhookRoute (hmacSha256Hex : String → String → String)
    (gitlabWebhookSecret : Option String) (repositoryId : String)
    (signature event : Option String) (rawBody : String) :
    Except HandlerError ApiResponse × List EnqueuedJob :=
  if !(isUUID repositoryId) then
    (.error (.customError "Invalid repository ID" 400), [])
  else
    match jsonParse rawBody with
    | none => (.error .bodyParseFailed, [])
    | some payload =>
      let enqueue : Except HandlerError ApiResponse × List EnqueuedJob :=
        (.ok { status := 200, message := "Webhook received and queued for processing" },
         [{ queueName := "webhook processing", jobName := "process-gitlab-webhook",
            data := { repositoryId := repositoryId, event := event,
                      payload := payload, provider := "gitlab" },
            attempts := 3, backoff := { kind := .exponential, delay := 2000 } }])
      if secretConfigured gitlabWebhookSecret then
        match GitLabService.verifyWebhookSignature hmacSha256Hex
            (Json.stringify payload) signature (gitlabWebhookSecret.getD "") with
        | .error e => (.error (.nodeError e), [])
        | .ok false => (.error (.customError "Invalid webhook signature" 401), [])
        | .ok true => enqueue
      else enqueue

/-- The response actually sent to the client after
middleware/errorHandler.ts has run: `asyncHandler` forwards a thrown
error to `errorHandler`, which answers with the error's `statusCode`
(default 500 for non-`CustomError` throws such as `TypeError` /
`RangeError`) — nothing ever propagates past it. -/
def runWithErrorHandler (r : Except HandlerError ApiResponse) : Nat :=
  match r with
  | .ok resp => resp.status
  | .error (.customError _ c) => c
  | .error (.nodeError _) => 500
  | .error .bodyParseFailed => 400

/-! ## A concrete stand-in for the external HMAC (used in closed theorems)

HMAC-SHA256 itself lives in Node's `crypto` module, outside this
repository; closed statements instantiate the function parameter with
a simple 64-hex-character keyed digest that, like the real one,
distinguishes the concrete messages involved. -/

def hexDigitChar (n : Nat) : Char :=
  if n < 10 then Char.ofNat (48 + n) else Char.ofNat (87 + n)

def byteHex (n : Nat) : String :=
  String.mk [hexDigitChar (n / 16 % 16), hexDigitChar (n % 16)]

def hexEncode (s : String) : String :=
  s.data.foldl (fun acc c => acc ++ byteHex (c.toNat % 256)) ""

/-- A 64-hex-character keyed digest standing in for
`crypto.createHmac('sha256', secret).update(msg).digest('hex')` in
closed statements. -/
def sampleHmacHex (secret msg : String) : String :=
  (hexEncode (secret ++ ":" ++ msg) ++ String.mk (List.replicate 64 '0')).take 64

def sampleRepositoryId : String := "123e4567-e89b-12d3-a456-426614174000"

def sampleRawBody : String := "\x7b\"a\": 1\x7d"

def sampleBody : Json := .obj [("a", .num 1)]

/-! ## C1, C2, C7, C9: webhook ingestion theorems -/

/-- C1: for every GitHub or GitLab webhook request with a valid
repository UUID and a configured secret, the handler's outcome is
determined by the signature verification: `false` yields the 401
`Invalid webhook signature` rejection with no job enqueued on any
queue, `true` yields a 200 response with exactly one webhook-queue
job carrying `{repositoryId, event, payload, provider}`; without a
configured secret the job is enqueued unconditionally. -/
theorem webhook_receive_rejects_or_enqueues_one
    (hmac : String → String → String) (secret repositoryId rawBody : String)
    (body : Json) (event signature : Option String)
    (hu : isUUID repositoryId = true)
    (hp : jsonParse rawBody = some body)
    (hs : secret ≠ "") :
    githubWebhookRoute hmac (some secret) repositoryId signature event rawBody =
      (match GitHubService.verifyWebhookSignature hmac (Json.stringify body) signature secret with
       | .ok false => (.error (.customError "Invalid webhook signature" 401), [])
       | .ok true =>
         (.ok { status := 200, message := "Webhook received and queued for processing" },
          [{ queueName := "webhook processing", jobName := "process-github-webhook",
             data := { repositoryId := repositoryId, event := event,
                       payload := body, provider := "github" },
             attempts := 3, backoff := { kind := .exponential, delay := 2000 } }])
       | .error e => (.error (.nodeError e), []))
    ∧ gitlabWebhookRoute hmac (some secret) repositoryId signature event rawBody =
      (match GitLabService.verifyWebhookSignature hmac (Json.stringify body) signature secret with
       | .ok false => (.error (.customError "Invalid webhook signature" 401), [])
       | .ok true =>
         (.ok { status := 200, message := "Webhook received and queued for processing" },
          [{ queueName := "webhook processing", jobName := "process-gitlab-webhook",
             data := { repositoryId := repositoryId, event := event,
                       payload := body, provider := "gitlab" },
             attempts := 3, backoff := { kind := .exponential, delay := 2000 } }])
       | .error e => (.error (.nodeError e), [])) := by
  have hs' : (secret != "") = true := bne_iff_ne.mpr hs
  constructor
  · simp only [githubWebhookRoute, hu, hp, secretConfigured, hs', Option.getD_some,
      Bool.not_true, Bool.false_eq_true, if_false, if_true, ite_true, ite_false]
    cases GitHubService.verifyWebhookSignature hmac (Json.stringify body) signature secret with
    | error e => rfl
    | ok b => cases b <;> rfl
  · simp only [gitlabWebhookRoute, hu, hp, secretConfigured, hs', Option.getD_some,
      Bool.not_true, Bool.false_eq_true, if_false, if_true, ite_true, ite_false]
    cases GitLabService.verifyWebhookSignature hmac (Json.stringify body) signature secret with
    | error e => rfl
    | ok b => cases b <;> rfl

/-- C1 witness: the theorem applied at a concrete request. -/
theorem webhook_receive_rejects_or_enqueues_one_witness :
    githubWebhookRoute sampleHmacHex (some "s3cret") sampleRepositoryId (some "x")
        (some "push") sampleRawBody =
      (match GitHubService.verifyWebhookSignature sampleHmacHex
          (Json.stringify sampleBody) (some "x") "s3cret" with
       | .ok false => (.error (.customError "Invalid webhook signature" 401), [])
       | .ok true =>
         (.ok { status := 200, message := "Webhook received and queued for processing" },
          [{ queueName := "webhook processing", jobName := "process-github-webhook",
             data := { repositoryId := sampleRepositoryId, event := some "push",
                       payload := sampleBody, provider := "github" },
             attempts := 3, backoff := { kind := .exponential, delay := 2000 } }])
       | .error e => (.error (.nodeError e), []))
    ∧ gitlabWebhookRoute sampleHmacHex (some "s3cret") sampleRepositoryId (some "x")
        (some "push") sampleRawBody =
      (match GitLabService.verifyWebhookSignature sampleHmacHex
          (Json.stringify sampleBody) (some "x") "s3cret" with
       | .ok false => (.error (.customError "Invalid webhook signature" 401), [])
       | .ok true =>
         (.ok { status := 200, message := "Webhook received and queued for processing" },
          [{ queueName := "webhook processing", jobName := "process-gitlab-webhook",
             data := { repositoryId := sampleRepositoryId, event := some "push",
                       payload := sampleBody, provider := "gitlab" },
             attempts := 3, backoff := { kind := .exponential, delay := 2000 } }])
       | .error e => (.error (.nodeError e), [])) :=
  webhook_receive_rejects_or_enqueues_one sampleHmacHex "s3cret" sampleRepositoryId
    sampleRawBody sampleBody (some "push") (some "x") (by rfl) (by rfl) (by decide)

/-- C7: when no webhook secret is configured for the provider,
verification is skipped entirely — for any signature header (present
or absent, any value) the request is accepted with a 200 and exactly
one webhook job is enqueued. -/
theorem webhook_no_secret_skips_verification
    (hmac : String → String → String) (repositoryId rawBody : String)
    (body : Json) (event signature : Option String)
    (hu : isUUID repositoryId = true)
    (hp : jsonParse rawBody = some body) :
    githubWebhookRoute hmac none repositoryId signature event rawBody =
      (.ok { status := 200, message := "Webhook received and queued for processing" },
       [{ queueName := "webhook processing", jobName := "process-github-webhook",
          data := { repositoryId := repositoryId, event := event,
                    payload := body, provider := "github" },
          attempts := 3, backoff := { kind := .exponential, delay := 2000 } }])
    ∧ gitlabWebhookRoute hmac none repositoryId signature event rawBody =
      (.ok { status := 200, message := "Webhook received and queued for processing" },
       [{ queueName := "webhook processing", jobName := "process-gitlab-webhook",
          data := { repositoryId := repositoryId, event := event,
                    payload := body, provider := "gitlab" },
          attempts := 3, backoff := { kind := .exponential, delay := 2000 } }]) := by
  constructor
  · simp only [githubWebhookRoute, hu, hp, secretConfigured,
      Bool.not_true, Bool.false_eq_true, if_false, if_true, ite_true, ite_false]
  · simp only [gitlabWebhookRoute, hu, hp, secretConfigured,
      Bool.not_true, Bool.false_eq_true, if_false, if_true, ite_true, ite_false]

/-- C7 witness: a concrete unsigned request is accepted and enqueued
although the signature header is absent. -/
theorem webhook_no_secret_skips_verification_witness :
    githubWebhookRoute sampleHmacHex none sampleRepositoryId none (some "push") sampleRawBody =
      (.ok { status := 200, message := "Webhook received and queued for processing" },
       [{ queueName := "webhook processing", jobName := "process-github-webhook",
          data := { repositoryId := sampleRepositoryId, event := some "push",
                    payload := sampleBody, provider := "github" },
          attempts := 3, backoff := { kind := .exponential, delay := 2000 } }])
    ∧ gitlabWebhookRoute sampleHmacHex none sampleRepositoryId none (some "push") sampleRawBody =
      (.ok { status := 200, message := "Webhook received and queued for processing" },
       [{ queueName := "webhook processing", jobName := "process-gitlab-webhook",
          data := { repositoryId := sampleRepositoryId, event := some "push",
                    payload := sampleBody, provider := "gitlab" },
          attempts := 3, backoff := { kind := .exponential, delay := 2000 } }]) :=
  webhook_no_secret_skips_verification sampleHmacHex sampleRepositoryId sampleRawBody
    sampleBody (some "push") none (by rfl) (by rfl)

/-- C9: with a secret configured, a request whose signature header is
absent makes `verifyWebhookSignature` throw a `TypeError`
(`Buffer.from(undefined)`), and one whose signature's byte length
differs from the expected digest's makes `crypto.timingSafeEqual`
throw a `RangeError`; either way the route does not produce the 401
`CustomError` rejection — the error reaches the generic error handler,
which answers 500 — and no job is enqueued. -/
theorem webhook_verify_throws_instead_of_401
    (hmac : String → String → String) (secret repositoryId rawBody sigStr : String)
    (body : Json) (event : Option String)
    (hu : isUUID repositoryId = true)
    (hp : jsonParse rawBody = some body)
    (hs : secret ≠ "")
    (hlenGH : sigStr.utf8ByteSize ≠ ("sha256=" ++ hmac secret (Json.stringify body)).utf8ByteSize)
    (hlenGL : sigStr.utf8ByteSize ≠ (hmac secret (Json.stringify body)).utf8ByteSize) :
    GitHubService.verifyWebhookSignature hmac (Json.stringify body) none secret
      = .error .typeError
    ∧ GitHubService.verifyWebhookSignature hmac (Json.stringify body) (some sigStr) secret
      = .error .rangeError
    ∧ githubWebhookRoute hmac (some secret) repositoryId none event rawBody
      = (.error (.nodeError .typeError), [])
    ∧ githubWebhookRoute hmac (some secret) repositoryId (some sigStr) event rawBody
      = (.error (.nodeError .rangeError), [])
    ∧ runWithErrorHandler
        (githubWebhookRoute hmac (some secret) repositoryId none event rawBody).1 = 500
    ∧ runWithErrorHandler
        (githubWebhookRoute hmac (some secret) repositoryId (some sigStr) event rawBody).1 = 500
    ∧ GitLabService.verifyWebhookSignature hmac (Json.stringify body) none secret
      = .error .typeError
    ∧ GitLabService.verifyWebhookSignature hmac (Json.stringify body) (some sigStr) secret
      = .error .rangeError
    ∧ gitlabWebhookRoute hmac (some secret) repositoryId none event rawBody
      = (.error (.nodeError .typeError), [])
    ∧ gitlabWebhookRoute hmac (some secret) repositoryId (some sigStr) event rawBody
      = (.error (.nodeError .rangeError), []) := by
  have hs' : (secret != "") = true := bne_iff_ne.mpr hs
  have hgh : GitHubService.verifyWebhookSignature hmac (Json.stringify body) (some sigStr) secret
      = .error .rangeError := by
    unfold GitHubService.verifyWebhookSignature timingSafeEqual
    exact if_neg hlenGH
  have hgl : GitLabService.verifyWebhookSignature hmac (Json.stringify body) (some sigStr) secret
      = .error .rangeError := by
    unfold GitLabService.verifyWebhookSignature timingSafeEqual
    exact if_neg hlenGL
  refine ⟨rfl, hgh, ?_, ?_, ?_, ?_, rfl, hgl, ?_, ?_⟩ <;>
    simp only [githubWebhookRoute, gitlabWebhookRoute, hu, hp, secretConfigured, hs',
      Option.getD_some, Bool.not_true, Bool.false_eq_true, if_false, if_true, ite_true,
      ite_false, hgh, hgl, runWithErrorHandler] <;>
    rfl

/-- C9 witness: concrete requests — absent header and a 5-byte header
against 71/64-byte expected digests — at a concrete HMAC instance. -/
theorem webhook_verify_throws_instead_of_401_witness :
    GitHubService.verifyWebhookSignature sampleHmacHex (Json.stringify sampleBody) none "s3cret"
      = .error .typeError
    ∧ GitHubService.verifyWebhookSignature sampleHmacHex (Json.stringify sampleBody)
        (some "short") "s3cret" = .error .rangeError
    ∧ githubWebhookRoute sampleHmacHex (some "s3cret") sampleRepositoryId none
        (some "push") sampleRawBody = (.error (.nodeError .typeError), [])
    ∧ githubWebhookRoute sampleHmacHex (some "s3cret") sampleRepositoryId (some "short")
        (some "push") sampleRawBody = (.error (.nodeError .rangeError), [])
    ∧ runWithErrorHandler (githubWebhookRoute sampleHmacHex (some "s3cret") sampleRepositoryId
        none (some "push") sampleRawBody).1 = 500
    ∧ runWithErrorHandler (githubWebhookRoute sampleHmacHex (some "s3cret") sampleRepositoryId
        (some "short") (some "push") sampleRawBody).1 = 500
    ∧ GitLabService.verifyWebhookSignature sampleHmacHex (Json.stringify sampleBody) none "s3cret"
      = .error .typeError
    ∧ GitLabService.verifyWebhookSignature sampleHmacHex (Json.stringify sampleBody)
        (some "short") "s3cret" = .error .rangeError
    ∧ gitlabWebhookRoute sampleHmacHex (some "s3cret") sampleRepositoryId none
        (some "push") sampleRawBody = (.error (.nodeError .typeError), [])
    ∧ gitlabWebhookRoute sampleHmacHex (some "s3cret") sampleRepositoryId (some "short")
        (some "push") sampleRawBody = (.error (.nodeError .rangeError), []) :=
  webhook_verify_throws_instead_of_401 sampleHmacHex "s3cret" sampleRepositoryId
    sampleRawBody "short" sampleBody (some "push") (by rfl) (by rfl) (by decide)
    (by decide) (by decide)

/-- C2 (code bug): the routes hand `verifyWebhookSignature` the string
`JSON.stringify(req.body)` — a re-serialization of the parsed payload
— instead of the raw, unparsed request body that the provider signed.
At this concrete request the raw body contains a whitespace byte, so
the re-serialization differs from the raw bytes, and a request whose
signature header is the correct digest over the raw body (which is
what GitHub and GitLab send) is rejected with the 401
`Invalid webhook signature` error and no job is enqueued. -/
theorem webhook_signature_over_reserialized_body :
    jsonParse sampleRawBody = some sampleBody
    ∧ Json.stringify sampleBody ≠ sampleRawBody
    ∧ githubWebhookRoute sampleHmacHex (some "topsecret") sampleRepositoryId
        (some ("sha256=" ++ sampleHmacHex "topsecret" sampleRawBody)) (some "push")
        sampleRawBody
      = (.error (.customError "Invalid webhook signature" 401), [])
    ∧ gitlabWebhookRoute sampleHmacHex (some "topsecret") sampleRepositoryId
        (some (sampleHmacHex "topsecret" sampleRawBody)) (some "push") sampleRawBody
      = (.error (.customError "Invalid webhook signature" 401), []) :=
  ⟨by rfl, by decide, by rfl, by rfl⟩

/-! ## C4: retry/backoff policies of the three queues -/

/-- C4: the three queues are configured exactly as claimed (analysis:
exponential base 2000 ms, 3 attempts; webhook: exponential base
1000 ms, 5 attempts; report: fixed base 5000 ms, 2 attempts); the
delay before attempt `n` is `baseDelay * 2^(n-1)` for the exponential
queues and the constant `baseDelay` for the fixed one, hence the delay
sequence is non-decreasing for the exponential policies and constant
for the fixed policy. -/
theorem queue_backoff_policies :
    analysisQueueOptions.attempts = 3
    ∧ analysisQueueOptions.backoff = { kind := .exponential, delay := 2000 }
    ∧ webhookQueueOptions.attempts = 5
    ∧ webhookQueueOptions.backoff = { kind := .exponential, delay := 1000 }
    ∧ reportQueueOptions.attempts = 2
    ∧ reportQueueOptions.backoff = { kind := .fixed, delay := 5000 }
    ∧ (∀ n : Nat, backoffDelay analysisQueueOptions.backoff n = 2000 * 2 ^ (n - 1))
    ∧ (∀ n : Nat, backoffDelay webhookQueueOptions.backoff n = 1000 * 2 ^ (n - 1))
    ∧ (∀ n : Nat, backoffDelay reportQueueOptions.backoff n = 5000)
    ∧ (∀ n : Nat, backoffDelay analysisQueueOptions.backoff n
        ≤ backoffDelay analysisQueueOptions.backoff (n + 1))
    ∧ (∀ n : Nat, backoffDelay webhookQueueOptions.backoff n
        ≤ backoffDelay webhookQueueOptions.backoff (n + 1))
    ∧ (∀ n : Nat, backoffDelay reportQueueOptions.backoff n
        = backoffDelay reportQueueOptions.backoff (n + 1)) := by
  refine ⟨rfl, rfl, rfl, rfl, rfl, rfl, fun n => rfl, fun n => rfl, fun n => rfl,
    fun n => ?_, fun n => ?_, fun n => rfl⟩ <;>
  · show _ * 2 ^ (n - 1) ≤ _ * 2 ^ (n + 1 - 1)
    exact Nat.mul_le_mul_left _ (Nat.pow_le_pow_right (by decide)
      (Nat.sub_le_sub_right (Nat.le_succ n) 1))

/-! ## Bull jobs, the job-status endpoint and the report download route
(routes/reports.ts) -/

/-- Bull job states as returned by `job.getState()`. -/
inductive JobState where
  | completed
  | failed
  | active
  | waiting
  | delayed
  | paused
deriving DecidableEq, Repr

/-- `job.returnvalue` of a report job: the worker's
`{ filePath, contentType, filename }` result. -/
structure ReportResult where
  filePath : String
  contentType : Option String
  filename : String
deriving DecidableEq, Repr

/-- A job as stored by the external Bull queue: the fields the two
report routes read (`getState()`, `progress()`, `data`, `returnvalue`,
`failedReason`). -/
structure BullJob where
  id : String
  state : JobState
  progress : Nat
  data : Json
  returnvalue : Option ReportResult
  failedReason : Option String

/-- `queue.getJob(jobId)`. -/
def getJob (store : List BullJob) (jobId : String) : Option BullJob :=
  store.find? (fun j => j.id == jobId)

/-- Bull semantics (external library): `job.returnvalue` is recorded
only when a job completes successfully, so it is populated only in
state `completed`. -/
def bullReturnvalueWF (j : BullJob) : Prop :=
  j.returnvalue.isSome = true → j.state = .completed

/-- The JSON body `router.get('/jobs/:jobId')` answers with:
`{ jobId, status, progress, data, result, error }`. -/
structure JobStatusBody where
  jobId : String
  status : JobState
  progress : Nat
  data : Json
  result : Option ReportResult
  error : Option String

/-- The `/jobs/:jobId` handler: throws the 404 `CustomError` for an
unknown id, otherwise answers 200 with the job's fields copied
verbatim. -/
def jobStatusRoute (store : List BullJob) (jobId : String) :
    Except HandlerError JobStatusBody :=
  match getJob store jobId with
  | none => .error (.customError "Job not found" 404)
  | some job =>
    .ok { jobId := jobId, status := job.state, progress := job.progress,
          data := job.data, result := job.returnvalue, error := job.failedReason }

/-- The HTTP outcome of the `/jobs/:jobId` endpoint after
middleware/errorHandler.ts: every throw becomes a structured JSON
error response (`CustomError` keeps its status code), so the caller
always receives a response, never an exception. -/
inductive JobStatusHttp where
  | success (status : Nat) (b : JobStatusBody)
  | failure (status : Nat) (message : String)

/-- The endpoint composed with `asyncHandler` + `errorHandler`. -/
def jobStatusEndpoint (store : List BullJob) (jobId : String) : JobStatusHttp :=
  match jobStatusRoute store jobId with
  | .ok b => .success 200 b
  | .error (.customError m c) => .failure c m
  | .error _ => .failure 500 "Internal Server Error"

/-- C5: the job-status endpoint never re-throws — an unknown id
becomes a structured 404 `Job not found` response — and a found job is
answered 200 with `{jobId, status, progress, data, result, error}`
where `error` always carries the job's last failure message
(`failedReason`) and, by Bull's return-value discipline, `result` is
populated only when the status is `completed` (stated by the guarded
`if`: the `result` field equals `returnvalue` gated on `completed`). -/
theorem job_status_endpoint_shape
    (store : List BullJob) (jobId : String)
    (hwf : ∀ j ∈ store, bullReturnvalueWF j) :
    jobStatusEndpoint store jobId =
      (match getJob store jobId with
       | none => .failure 404 "Job not found"
       | some job =>
         .success 200 { jobId := jobId, status := job.state, progress := job.progress,
                        data := job.data,
                        result := if job.state = .completed then job.returnvalue else none,
                        error := job.failedReason }) := by
  cases hj : getJob store jobId with
  | none => simp only [jobStatusEndpoint, jobStatusRoute, hj]
  | some job =>
    have hmem : job ∈ store := List.mem_of_find?_eq_some hj
    have hwfj := hwf job hmem
    simp only [jobStatusEndpoint, jobStatusRoute, hj]
    by_cases hc : job.state = .completed
    · simp [hc]
    · have hnone : job.returnvalue = none := by
        cases hr : job.returnvalue with
        | none => rfl
        | some r => exact absurd (hwfj (by simp [hr])) hc
      simp only [if_neg hc, hnone]

/-- Sample Bull store: one completed report job with a recorded
result, one failed job with a `failedReason`. -/
def sampleStore : List BullJob :=
  [{ id := "41", state := .failed, progress := 10, data := .obj [("type", .str "review")],
     returnvalue := none, failedReason := some "boom" },
   { id := "42", state := .completed, progress := 100, data := .obj [("type", .str "review")],
     returnvalue := some { filePath := "/tmp/report-42.pdf",
                           contentType := some "application/pdf",
                           filename := "report-42.pdf" },
     failedReason := none }]

/-- C5 witness: the theorem applied to the sample store at a found id. -/
theorem job_status_endpoint_shape_witness :
    jobStatusEndpoint sampleStore "41" =
      (match getJob sampleStore "41" with
       | none => .failure 404 "Job not found"
       | some job =>
         .success 200 { jobId := "41", status := job.state, progress := job.progress,
                        data := job.data,
                        result := if job.state = .completed then job.returnvalue else none,
                        error := job.failedReason }) :=
  job_status_endpoint_shape sampleStore "41"
    (by intro j hj; fin_cases hj <;> intro h <;> simp_all [bullReturnvalueWF])

/-! ## Filesystem model (shared by the download route and the ESLint
service): an association list from path to file content. -/

def readFileFS (fileSystem : List (String × String)) (path : String) : Option String :=
  (fileSystem.find? (fun e => e.1 == path)).map (fun e => e.2)

def removeFileFS (fileSystem : List (String × String)) (path : String) :
    List (String × String) :=
  fileSystem.filter (fun e => !(e.1 == path))

def writeFileFS (fileSystem : List (String × String)) (path content : String) :
    List (String × String) :=
  (path, content) :: removeFileFS fileSystem path

theorem readFileFS_writeFileFS (fileSystem : List (String × String)) (path content : String) :
    readFileFS (writeFileFS fileSystem path content) path = some content := by
  simp [readFileFS, writeFileFS, List.find?]

theorem readFileFS_removeFileFS (fileSystem : List (String × String)) (path : String) :
    readFileFS (removeFileFS fileSystem path) path = none := by
  have hfind : List.find? (fun e => e.1 == path) (removeFileFS fileSystem path) = none := by
    rw [List.find?_eq_none]
    intro x hx
    have hmem := List.of_mem_filter hx
    simp only [Bool.not_eq_true'] at hmem
    simp [hmem]
  simp [readFileFS, hfind]

/-! ## C10: the report download route (routes/reports.ts) -/

/-- The server state the download route touches: the Bull store and
the disk holding generated report files. -/
structure ReportServerState where
  jobs : List BullJob
  fileSystem : List (String × String)

/-- Observable outcome of one `/download/:jobId` request.
`streamReadError` is `fs.createReadStream` on a path that no longer
exists: the stream emits an ENOENT `error` event for which the route
registers no handler — not any of the `CustomError` responses. -/
inductive DownloadOutcome where
  | jobNotFound
  | notReady
  | reportFileNotFound
  | streamed (contentType filename content : String)
  | streamReadError (path : String)
deriving DecidableEq, Repr

/-- `router.get('/download/:jobId')`: 404 `Job not found` for an
unknown id, 202 while not `completed`, 404 `Report file not found`
when the return value or its `filePath` is falsy; otherwise it streams
the file and, on the stream's `end` event, unlinks it from disk.  The
job store itself is never written. -/
def downloadRoute (st : ReportServerState) (jobId : String) :
    DownloadOutcome × ReportServerState :=
  match getJob st.jobs jobId with
  | none => (.jobNotFound, st)
  | some job =>
    if job.state = .completed then
      match job.returnvalue with
      | none => (.reportFileNotFound, st)
      | some result =>
        if result.filePath = "" then (.reportFileNotFound, st)
        else
          match readFileFS st.fileSystem result.filePath with
          | none => (.streamReadError result.filePath, st)
          | some content =>
            (.streamed (result.contentType.getD "application/pdf") result.filename content,
             { st with fileSystem := removeFileFS st.fileSystem result.filePath })
    else (.notReady, st)

/-- Sample state for the download route: the completed job `42` whose
report file is on disk. -/
def sampleDownloadState : ReportServerState :=
  { jobs := sampleStore, fileSystem := [("/tmp/report-42.pdf", "PDFDATA")] }

/-- C10 counterexample: after the first download of job `42` streams
the report and deletes the file, a second request for the same job
does not fail with the 404 `Report file not found` branch (the job's
`returnvalue.filePath` is still set, and the route never checks the
disk before streaming): it attempts to stream the deleted file, which
surfaces as an unhandled filesystem read error. -/
theorem download_second_request_not_404 :
    (downloadRoute sampleDownloadState "42").1
      = .streamed "application/pdf" "report-42.pdf" "PDFDATA"
    ∧ (downloadRoute (downloadRoute sampleDownloadState "42").2 "42").1
      ≠ .reportFileNotFound
    ∧ (downloadRoute (downloadRoute sampleDownloadState "42").2 "42").1
      = .streamReadError "/tmp/report-42.pdf" :=
  ⟨by rfl, by decide, by rfl⟩

/-- C10 as amended: streaming a completed job's report deletes the
file from disk and leaves the job store unchanged; a second request
for the same job then finds the job record intact (state `completed`,
`returnvalue` still naming the path), skips every `CustomError`
branch, and fails attempting to stream the missing file. -/
theorem download_is_one_shot
    (st : ReportServerState) (jobId : String) (job : BullJob)
    (result : ReportResult) (content : String)
    (hj : getJob st.jobs jobId = some job)
    (hc : job.state = .completed)
    (hr : job.returnvalue = some result)
    (hpath : result.filePath ≠ "")
    (hfile : readFileFS st.fileSystem result.filePath = some content) :
    downloadRoute st jobId
      = (.streamed (result.contentType.getD "application/pdf") result.filename content,
         { jobs := st.jobs, fileSystem := removeFileFS st.fileSystem result.filePath })
    ∧ (downloadRoute st jobId).2.jobs = st.jobs
    ∧ readFileFS (downloadRoute st jobId).2.fileSystem result.filePath = none
    ∧ downloadRoute (downloadRoute st jobId).2 jobId
      = (.streamReadError result.filePath,
         { jobs := st.jobs, fileSystem := removeFileFS st.fileSystem result.filePath }) := by
  have h1 : downloadRoute st jobId
      = (.streamed (result.contentType.getD "application/pdf") result.filename content,
         { jobs := st.jobs, fileSystem := removeFileFS st.fileSystem result.filePath }) := by
    simp [downloadRoute, hj, hc, hr, hpath, hfile]
  refine ⟨h1, by rw [h1], ?_, ?_⟩
  · rw [h1]
    exact readFileFS_removeFileFS st.fileSystem result.filePath
  · rw [h1]
    simp [downloadRoute, hj, hc, hr, hpath, readFileFS_removeFileFS]

/-- C10 amended-claim witness: the general one-shot theorem applied at
the sample state. -/
theorem download_is_one_shot_witness :
    downloadRoute sampleDownloadState "42"
      = (.streamed "application/pdf" "report-42.pdf" "PDFDATA",
         { jobs := sampleDownloadState.jobs,
           fileSystem := removeFileFS sampleDownloadState.fileSystem "/tmp/report-42.pdf" })
    ∧ (downloadRoute sampleDownloadState "42").2.jobs = sampleDownloadState.jobs
    ∧ readFileFS (downloadRoute sampleDownloadState "42").2.fileSystem "/tmp/report-42.pdf"
      = none
    ∧ downloadRoute (downloadRoute sampleDownloadState "42").2 "42"
      = (.streamReadError "/tmp/report-42.pdf",
         { jobs := sampleDownloadState.jobs,
           fileSystem := removeFileFS sampleDownloadState.fileSystem "/tmp/report-42.pdf" }) :=
  download_is_one_shot sampleDownloadState "42"
    { id := "42", state := .completed, progress := 100, data := .obj [("type", .str "review")],
      returnvalue := some { filePath := "/tmp/report-42.pdf",
                            contentType := some "application/pdf",
                            filename := "report-42.pdf" },
      failedReason := none }
    { filePath := "/tmp/report-42.pdf", contentType := some "application/pdf",
      filename := "report-42.pdf" }
    "PDFDATA" (by rfl) (by rfl) (by rfl) (by decide) (by rfl)

/-! ## ESLint service (eslintService.ts) -/

/-- The fields of an ESLint message used by the service. -/
structure ESLintIssue where
  ruleId : String
  severity : Nat
  message : String
  line : Nat
  column : Nat
deriving DecidableEq, Repr

/-- One entry of the array `ESLint#lintFiles` resolves with. -/
structure ESLintResult where
  filePath : String
  messages : List ESLintIssue
  errorCount : Nat
  warningCount : Nat
  fixableErrorCount : Nat
  fixableWarningCount : Nat
deriving DecidableEq, Repr

/-- The `{ fixed, output, messages }` object `fixCode` resolves with. -/
structure FixCodeResult where
  fixed : Bool
  output : String
  messages : List ESLintIssue
deriving DecidableEq, Repr

/-- `ESLintService.fixCode`: writes the source to a temp file, runs
`eslint.lintFiles` (with `fix: true`), re-reads the temp file, deletes
it, and returns `{ fixed, output, messages }`.  The external engine is
a pure function from file content to lint result: per the ESLint API,
`lintFiles` never modifies the file — applied fixes live only in the
in-memory result, and the service never calls `ESLint.outputFixes` —
so the re-read returns exactly what was written. -/
def ESLintService.fixCode (lintFilesWithFix : String → ESLintResult)
    (fileSystem : List (String × String)) (tempDir sourceCode filename : String) :
    FixCodeResult × List (String × String) :=
  let tempFilePath := tempDir ++ "/" ++ filename
  let fs1 := writeFileFS fileSystem tempFilePath sourceCode
  let result := lintFilesWithFix ((readFileFS fs1 tempFilePath).getD "")
  let fixedContent := (readFileFS fs1 tempFilePath).getD ""
  let fs2 := removeFileFS fs1 tempFilePath
  ({ fixed := decide (result.fixableErrorCount > 0) || decide (result.fixableWarningCount > 0),
     output := fixedContent,
     messages := result.messages }, fs2)

/-- C3 (code bug): `fixCode` never produces corrected text — its
`output` is always exactly the input source (the fixes ESLint computes
in memory are never written back, `ESLint.outputFixes` is never
called), and a second application to that output returns the same
`fixed` flag as the first instead of reporting `fixed = false`. -/
theorem eslint_fixCode_output_is_input
    (lintFilesWithFix : String → ESLintResult)
    (fileSystem fs2 : List (String × String)) (tempDir sourceCode filename : String) :
    (ESLintService.fixCode lintFilesWithFix fileSystem tempDir sourceCode filename).1.output
      = sourceCode
    ∧ (ESLintService.fixCode lintFilesWithFix fs2 tempDir
        (ESLintService.fixCode lintFilesWithFix fileSystem tempDir sourceCode filename).1.output
        filename).1.fixed
      = (ESLintService.fixCode lintFilesWithFix fileSystem tempDir sourceCode filename).1.fixed := by
  have hread := readFileFS_writeFileFS fileSystem (tempDir ++ "/" ++ filename) sourceCode
  have hread2 := readFileFS_writeFileFS fs2 (tempDir ++ "/" ++ filename) sourceCode
  constructor
  · simp [ESLintService.fixCode, hread]
  · simp [ESLintService.fixCode, hread, hread2]

/-- C3 witness at a concrete failing input: `var x = 1;;` carries a
fixable `no-extra-semi` error under the default configuration; real
ESLint's in-memory fix result is `var x = 1;`, but `fixCode` returns
the input unchanged.  The engine stand-in reports the fixable error
exactly as `lintFiles` does before fixes are applied. -/
def sampleLintEngine (content : String) : ESLintResult :=
  if content = "var x = 1;;" then
    { filePath := "/tmp/code-reviewer-eslint/t.js",
      messages := [{ ruleId := "no-extra-semi", severity := 2,
                     message := "Unnecessary semicolon.", line := 1, column := 11 }],
      errorCount := 1, warningCount := 0,
      fixableErrorCount := 1, fixableWarningCount := 0 }
  else
    { filePath := "/tmp/code-reviewer-eslint/t.js", messages := [],
      errorCount := 0, warningCount := 0,
      fixableErrorCount := 0, fixableWarningCount := 0 }

theorem eslint_fixCode_output_is_input_witness :
    (ESLintService.fixCode sampleLintEngine [] "/tmp/code-reviewer-eslint"
        "var x = 1;;" "t.js").1.output = "var x = 1;;"
    ∧ (ESLintService.fixCode sampleLintEngine [] "/tmp/code-reviewer-eslint"
        (ESLintService.fixCode sampleLintEngine [] "/tmp/code-reviewer-eslint"
          "var x = 1;;" "t.js").1.output "t.js").1.fixed
      = (ESLintService.fixCode sampleLintEngine [] "/tmp/code-reviewer-eslint"
          "var x = 1;;" "t.js").1.fixed :=
  eslint_fixCode_output_is_input sampleLintEngine [] [] "/tmp/code-reviewer-eslint"
    "var x = 1;;" "t.js"

/-! ## C6: report aggregation (`ESLintService.generateReport`) and the
spec's aggregator stats -/

structure ReportSummary where
  totalFiles : Nat
  totalErrors : Nat
  totalWarnings : Nat
  totalFixableErrors : Nat
  totalFixableWarnings : Nat
deriving DecidableEq, Repr

structure ReportFileEntry where
  filePath : String
  errorCount : Nat
  warningCount : Nat
  messages : List ESLintIssue
deriving DecidableEq, Repr

structure EslintReport where
  summary : ReportSummary
  files : List ReportFileEntry
deriving DecidableEq, Repr

/-- `ESLintService.generateReport`: `summary` totals are `reduce`
sums over the results array, `files` is a one-to-one `map`. -/
def ESLintService.generateReport (results : List ESLintResult) : EslintReport :=
  { summary :=
      { totalFiles := results.length,
        totalErrors := results.foldl (fun sum r => sum + r.errorCount) 0,
        totalWarnings := results.foldl (fun sum r => sum + r.warningCount) 0,
        totalFixableErrors := results.foldl (fun sum r => sum + r.fixableErrorCount) 0,
        totalFixableWarnings := results.foldl (fun sum r => sum + r.fixableWarningCount) 0 },
    files := results.map (fun r =>
      { filePath := r.filePath, errorCount := r.errorCount,
        warningCount := r.warningCount, messages := r.messages }) }

theorem foldl_add_eq_sum_map (f : ESLintResult → Nat) (a : Nat) (l : List ESLintResult) :
    l.foldl (fun sum r => sum + f r) a = a + (l.map f).sum := by
  induction l generalizing a with
  | nil => simp
  | cons r rest ih => simp [List.foldl, ih (a + f r), Nat.add_assoc]

theorem foldl_add_eq_sum_map_zero (f : ESLintResult → Nat) (l : List ESLintResult) :
    l.foldl (fun sum r => sum + f r) 0 = (l.map f).sum := by
  rw [foldl_add_eq_sum_map, Nat.zero_add]

/-- Canonical issue severities of the data model. -/
inductive Severity where
  | info
  | minor
  | major
  | critical
  | blocker
deriving DecidableEq, Repr

/-- Canonical issue types of the data model. -/
inductive IssueType where
  | bug
  | vulnerability
  | codeSmell
  | securityHotspot
  | style
deriving DecidableEq, Repr

/-- A canonical `Issue` produced by the Result Aggregator. -/
structure Issue where
  key : String
  severity : Severity
  issueType : IssueType
  filePath : String
  line : Nat
  message : String
  ruleId : String
deriving DecidableEq, Repr

/-- Modelled from the spec: the Result Aggregator's `stats` — "tallies
issue counts by severity and by type" — is not implemented under
`src/` (the repository's statistics endpoints are TODO stubs), so the
tally is taken from the aggregator contract's words. -/
def aggregateStats (issues : List Issue) : (Severity → Nat) × (IssueType → Nat) :=
  (fun s => (issues.filter (fun i => i.severity == s)).length,
   fun t => (issues.filter (fun i => i.issueType == t)).length)

def allSeverities : List Severity := [.info, .minor, .major, .critical, .blocker]

def allIssueTypes : List IssueType :=
  [.bug, .vulnerability, .codeSmell, .securityHotspot, .style]

def sumBySeverity (issues : List Issue) : Nat :=
  (allSeverities.map (fun s => (aggregateStats issues).1 s)).sum

def sumByType (issues : List Issue) : Nat :=
  (allIssueTypes.map (fun t => (aggregateStats issues).2 t)).sum

theorem filter_severity_cons_length (i : Issue) (rest : List Issue) (s : Severity) :
    (List.filter (fun x => x.severity == s) (i :: rest)).length
      = (if i.severity = s then 1 else 0)
        + (List.filter (fun x => x.severity == s) rest).length := by
  by_cases h : i.severity = s
  · simp [List.filter_cons, h, Nat.add_comm]
  · simp [List.filter_cons, h]

theorem filter_issueType_cons_length (i : Issue) (rest : List Issue) (t : IssueType) :
    (List.filter (fun x => x.issueType == t) (i :: rest)).length
      = (if i.issueType = t then 1 else 0)
        + (List.filter (fun x => x.issueType == t) rest).length := by
  by_cases h : i.issueType = t
  · simp [List.filter_cons, h, Nat.add_comm]
  · simp [List.filter_cons, h]

theorem sumBySeverity_eq_length (issues : List Issue) :
    sumBySeverity issues = issues.length := by
  induction issues with
  | nil => rfl
  | cons i rest ih =>
    simp only [sumBySeverity, aggregateStats, allSeverities, List.map, List.sum_cons,
      List.sum_nil, List.length_cons] at ih ⊢
    rw [filter_severity_cons_length i rest .info, filter_severity_cons_length i rest .minor,
      filter_severity_cons_length i rest .major, filter_severity_cons_length i rest .critical,
      filter_severity_cons_length i rest .blocker]
    cases i.severity <;> simp <;> omega

theorem sumByType_eq_length (issues : List Issue) :
    sumByType issues = issues.length := by
  induction issues with
  | nil => rfl
  | cons i rest ih =>
    simp only [sumByType, aggregateStats, allIssueTypes, List.map, List.sum_cons,
      List.sum_nil, List.length_cons] at ih ⊢
    rw [filter_issueType_cons_length i rest .bug,
      filter_issueType_cons_length i rest .vulnerability,
      filter_issueType_cons_length i rest .codeSmell,
      filter_issueType_cons_length i rest .securityHotspot,
      filter_issueType_cons_length i rest .style]
    cases i.issueType <;> simp <;> omega

/-- C6: `generateReport` is totals-preserving — each summary counter
is the element count or the per-field sum over the input — its `files`
entries correspond one-to-one to the inputs, and being a pure function
it is deterministic; and the (spec-modelled) aggregator stats satisfy
`sum(bySeverity) == sum(byType) == len(issues)`. -/
theorem report_aggregation_totals (results : List ESLintResult) (issues : List Issue) :
    (ESLintService.generateReport results).summary.totalFiles = results.length
    ∧ (ESLintService.generateReport results).summary.totalErrors
      = (results.map (fun r => r.errorCount)).sum
    ∧ (ESLintService.generateReport results).summary.totalWarnings
      = (results.map (fun r => r.warningCount)).sum
    ∧ (ESLintService.generateReport results).summary.totalFixableErrors
      = (results.map (fun r => r.fixableErrorCount)).sum
    ∧ (ESLintService.generateReport results).summary.totalFixableWarnings
      = (results.map (fun r => r.fixableWarningCount)).sum
    ∧ (ESLintService.generateReport results).files.length = results.length
    ∧ (ESLintService.generateReport results).files.map (fun f => f.filePath)
      = results.map (fun r => r.filePath)
    ∧ ESLintService.generateReport results = ESLintService.generateReport results
    ∧ sumBySeverity issues = issues.length
    ∧ sumByType issues = issues.length := by
  refine ⟨rfl, ?_, ?_, ?_, ?_, by simp [ESLintService.generateReport], ?_, rfl,
    sumBySeverity_eq_length issues, sumByType_eq_length issues⟩
  · exact foldl_add_eq_sum_map_zero (fun r => r.errorCount) results
  · exact foldl_add_eq_sum_map_zero (fun r => r.warningCount) results
  · exact foldl_add_eq_sum_map_zero (fun r => r.fixableErrorCount) results
  · exact foldl_add_eq_sum_map_zero (fun r => r.fixableWarningCount) results
  · simp [ESLintService.generateReport]

/-! ## C8: realtime fanout (websocket setup file) -/

/-- The socket.io server's room table: room name to the connection
ids currently joined. -/
structure SocketServer where
  rooms : List (String × List String)

/-- `io.to(room)` targets exactly the connections joined to `room`
(an absent room has no members). -/
def roomMembers (io : SocketServer) (room : String) : List String :=
  match io.rooms.find? (fun e => e.1 == room) with
  | some e => e.2
  | none => []

/-- One delivered event: connection id, event name, payload. -/
structure Emission where
  connId : String
  event : String
  data : Json

/-- `ioInstance.to(room).emit(event, data)` guarded by the
`if (!ioInstance) return;` check shared by all the emit helpers:
returns the deliveries performed together with the (unchanged) server
state — `emit` reads the membership table and never writes it, and no
event is recorded anywhere for later delivery. -/
def emitToRoom (io : Option SocketServer) (room event : String) (data : Json) :
    List Emission × Option SocketServer :=
  match io with
  | none => ([], none)
  | some s => ((roomMembers s room).map (fun c => ⟨c, event, data⟩), some s)

/-- `emitToRepository(repositoryId, event, data)`. -/
def emitToRepository (io : Option SocketServer) (repositoryId event : String) (data : Json) :
    List Emission × Option SocketServer :=
  emitToRoom io ("repository:" ++ repositoryId) event data

/-- `emitToPR(prId, event, data)`. -/
def emitToPR (io : Option SocketServer) (prId event : String) (data : Json) :
    List Emission × Option SocketServer :=
  emitToRoom io ("pr:" ++ prId) event data

/-- `emitToUser(userId, event, data)`. -/
def emitToUser (io : Option SocketServer) (userId event : String) (data : Json) :
    List Emission × Option SocketServer :=
  emitToRoom io ("user:" ++ userId) event data

/-- Members of a room as seen through the optional server handle
(`none` — the fanout layer not initialized — has no members). -/
def membersOfOpt (io : Option SocketServer) (room : String) : List String :=
  match io with
  | none => []
  | some s => roomMembers s room

theorem emitToRoom_empty (io : Option SocketServer) (room event : String) (data : Json)
    (h : membersOfOpt io room = []) :
    emitToRoom io room event data = ([], io) := by
  cases io with
  | none => rfl
  | some s =>
    simp only [membersOfOpt] at h
    simp [emitToRoom, h]

/-- C8: publishing to a room with no joined connection — including
when the fanout layer was never initialized — delivers nothing,
raises nothing (the helpers return normally), and leaves the server
state unchanged; no event is buffered anywhere for later delivery. -/
theorem publish_empty_room_is_noop
    (io : Option SocketServer) (repositoryId prId userId event : String) (data : Json)
    (hrep : membersOfOpt io ("repository:" ++ repositoryId) = [])
    (hpr : membersOfOpt io ("pr:" ++ prId) = [])
    (huser : membersOfOpt io ("user:" ++ userId) = []) :
    emitToRepository io repositoryId event data = ([], io)
    ∧ emitToPR io prId event data = ([], io)
    ∧ emitToUser io userId event data = ([], io) :=
  ⟨emitToRoom_empty io ("repository:" ++ repositoryId) event data hrep,
   emitToRoom_empty io ("pr:" ++ prId) event data hpr,
   emitToRoom_empty io ("user:" ++ userId) event data huser⟩

/-- A server with one populated room, none of them the targets below. -/
def sampleSocketServer : SocketServer :=
  { rooms := [("repository:other-repo", ["conn-1", "conn-2"])] }

/-- C8 witness: the no-op theorem applied to an uninitialized layer
would be trivial, so it is applied to a live server whose `pr:42`,
`repository:abc` and `user:u1` rooms have no members. -/
theorem publish_empty_room_is_noop_witness :
    emitToRepository (some sampleSocketServer) "abc" "issue_found" (.obj []) =
      ([], some sampleSocketServer)
    ∧ emitToPR (some sampleSocketServer) "42" "issue_found" (.obj []) =
      ([], some sampleSocketServer)
    ∧ emitToUser (some sampleSocketServer) "u1" "issue_found" (.obj []) =
      ([], some sampleSocketServer) :=
  publish_empty_room_is_noop (some sampleSocketServer) "abc" "42" "u1" "issue_found"
    (.obj []) (by rfl) (by rfl) (by rfl)
